import Mathlib

/-!
# GoCardless MCP server — verification of the tool-dispatch layer

Shallow embedding of `src/index.ts` of the `gocardless-mcp-server`
repository: the tool registry, the HTTP request construction, and the
`CallToolRequestSchema` handler (`callTool` below), together with proofs
about the behaviour the specification describes.

Modelling conventions:
* JavaScript argument values are modelled by `JVal` (strings, integer
  numbers, booleans, objects, null); `undefined` is modelled by absence
  (`Option`/missing key).  Numeric values are modelled as integers, which
  covers every value the handlers treat numerically (minor-unit amounts,
  listing limits).
* The handlers are `async` but strictly sequential with at most one
  outbound HTTP call per invocation; the call is modelled by recording the
  constructed request and consuming a single `Upstream` outcome (parsed
  JSON on success, a thrown error otherwise), exactly mirroring
  `makeGoCardlessRequest`.
* `throw new Error(msg)` inside the handler's `try` block is modelled by
  returning the result the `catch` block would build from it:
  `{content := [text ("Error: " ++ msg)], isError := true}`.
-/

namespace GoCardless

/-- A parsed JSON value as the handlers see it (`arguments` entries and
request-body fields).  `undefined` is represented by absence, not by a
constructor. -/
inductive JVal where
  | str (s : String)
  | num (n : Int)
  | bool (b : Bool)
  | obj (fields : List (String × JVal))
  | null

/-- JavaScript truthiness of a `JVal`, as used by the handlers' guards
(`if (args?.limit)`, `if (!args?.customer_id)`, …). -/
def JVal.truthy : JVal → Bool
  | .str s => s ≠ ""
  | .num n => n ≠ 0
  | .bool b => b
  | .obj _ => true
  | .null => false

/-- JavaScript string conversion as used by template interpolation and
`.toString()` on argument values. -/
def JVal.jsToString : JVal → String
  | .str s => s
  | .num n => toString n
  | .bool b => if b then "true" else "false"
  | .obj _ => "[object Object]"
  | .null => "null"

/-- The `arguments` object of a tool invocation: key/value pairs.  The MCP
request may omit `arguments` entirely, hence `OptArgs` below. -/
abbrev Args := List (String × JVal)

/-- `request.params.arguments`, which may be `undefined`. -/
abbrev OptArgs := Option Args

/-- `args?.key`: optional-chaining lookup into the arguments object. -/
def getArg (args : OptArgs) (key : String) : Option JVal :=
  args.bind fun a => a.lookup key

/-- Truthiness of `args?.key` (an absent object or key is falsy). -/
def argTruthy (args : OptArgs) (key : String) : Bool :=
  match getArg args key with
  | some v => v.truthy
  | none => false

/-- Interpolation `${args.key}` (only reached under a truthiness guard in
the source, so the `"undefined"` fallback is never rendered there). -/
def argToString (args : OptArgs) (key : String) : String :=
  match getArg args key with
  | some v => v.jsToString
  | none => "undefined"

/-- `GOCARDLESS_CONFIG`: environment selector and access token, read once
at startup.  The fixed `version: '2015-07-06'` header plays no role in the
claims and is a constant. -/
structure Config where
  environment : String
  accessToken : String

/-- `process.env.GOCARDLESS_ENVIRONMENT || 'sandbox'`: an unset (`none`)
or empty environment variable falls back to `"sandbox"`. -/
def configEnvironment (envVar : Option String) : String :=
  match envVar with
  | some s => if s ≠ "" then s else "sandbox"
  | none => "sandbox"

/-- `getApiBaseUrl()`: the live host exactly when the configured
environment string equals `"live"`, the sandbox host otherwise. -/
def getApiBaseUrl (environment : String) : String :=
  if environment = "live" then "https://api.gocardless.com"
  else "https://api-sandbox.gocardless.com"

/-- One block of a tool result's `content` array. -/
structure ContentBlock where
  type : String
  text : String

/-- The result shape returned by the `CallToolRequestSchema` handler.  The
source sets `isError: true` only in the `catch` block; success-shaped
returns omit the field, which reads back as the falsy `undefined` and is
modelled as `false`. -/
structure ToolResult where
  content : List ContentBlock
  isError : Bool

/-- A success-shaped return `{content: [{type: 'text', text}]}`. -/
def okResult (text : String) : ToolResult :=
  { content := [{ type := "text", text := text }], isError := false }

/-- The `catch` block's shape for a thrown `Error(msg)`:
`{content: [{type: 'text', text: 'Error: ' + msg}], isError: true}`. -/
def errResult (msg : String) : ToolResult :=
  { content := [{ type := "text", text := "Error: " ++ msg }], isError := true }

/-- The outbound request handed to `makeGoCardlessRequest`/`fetch`.  The
source passes one endpoint string; here the path and its query parameters
are kept structured (`URLSearchParams` insertion order preserved), and the
JSON body keeps the key order `JSON.stringify` would emit, with
`undefined`-valued keys dropped. -/
structure HttpRequest where
  path : String
  query : List (String × String)
  method : String
  body : Option JVal

/-- Upstream resources, shaped exactly as the handlers destructure the
parsed response JSON. -/
structure Customer where
  id : String
  email : String
  given_name : String
  family_name : String
  created_at : String
  language : String
  /-- `JSON.stringify(customer.metadata, null, 2)` modelled as the already
  rendered string, since the handler only ever interpolates it. -/
  metadata : String

structure BankAccount where
  id : String
  account_number_ending : String
  bank_name : String
  enabled : Bool

structure RedirectFlow where
  id : String
  redirect_url : String

structure Payment where
  id : String
  amount : Nat
  currency : String
  status : String
  created_at : String
  description : Option String

structure PaymentRequest where
  amount : Option Nat
  currency : Option String
  description : Option String
  reference : Option String

structure BillingRequest where
  id : String
  status : String
  created_at : String
  purpose_code : String
  payment_request : Option PaymentRequest
  /-- `JSON.stringify(billingRequest.metadata, null, 2)`, pre-rendered. -/
  metadata : String

structure BRFlow where
  id : String
  authorisation_url : String
  expires_at : String

/-- The parsed JSON body of a successful upstream response, one
constructor per response shape a handler destructures (GoCardless nests
the resource under its plural name; `data.customers` holds a single
object for create/get and a list for listing). -/
inductive ApiData where
  | customers (cs : List Customer)
  | customer (c : Customer)
  | bankAccounts (accounts : List BankAccount)
  | redirectFlow (flow : RedirectFlow)
  | payments (ps : List Payment)
  | billingRequests (brs : List BillingRequest)
  | billingRequest (br : BillingRequest)
  | billingRequestFlow (flow : BRFlow)

/-- Outcome of the single outbound call: parsed JSON on a 2xx response, a
thrown `GoCardless API error: …` on a non-ok status, or a rejected fetch
(network-level failure). -/
inductive Upstream where
  | ok (data : ApiData)
  | httpFailure (status : Nat) (statusText : String) (body : String)
  | transportFailure (message : String)

/-- Dispatch on the upstream outcome after the request has been issued:
`makeGoCardlessRequest` throws
`GoCardless API error: ${status} ${statusText}\n${body}` on a non-ok
response and propagates the transport error's message; both are caught by
the handler's `catch` block. -/
def finishCall (req : HttpRequest) (up : Upstream)
    (render : ApiData → ToolResult) : ToolResult × Option HttpRequest :=
  match up with
  | .ok data => (render data, some req)
  | .httpFailure status statusText body =>
      (errResult ("GoCardless API error: " ++ toString status ++ " " ++
        statusText ++ "\n" ++ body), some req)
  | .transportFailure message => (errResult message, some req)

/-- A successful response whose JSON lacks the resource shape the handler
dereferences raises a fault (e.g. `data.payments.length` on a body with
no `payments` key) that the `catch` block converts to an error result;
modelled uniformly by this result. -/
def shapeError : ToolResult :=
  errResult "unexpected upstream response shape"

/-! ## Query-string and body construction -/

/-- `if (args?.limit) queryParams.set('limit', args.limit.toString())`:
a truthy `limit` of any type is stringified and passed through; an absent
or falsy one contributes nothing. -/
def limitParam (args : OptArgs) : List (String × String) :=
  match getArg args "limit" with
  | some v => if v.truthy then [("limit", v.jsToString)] else []
  | none => []

/-- `if (args?.key && typeof args.key === 'string') queryParams.set(key,
args.key)`: only a truthy (hence non-empty) string value is copied. -/
def strParam (args : OptArgs) (key : String) : List (String × String) :=
  match getArg args key with
  | some (.str s) => if s ≠ "" then [(key, s)] else []
  | _ => []

/-- `[(key, v)]` when the key is present, `[]` when it is `undefined`
(`JSON.stringify` drops `undefined`-valued keys). -/
def optEntry (key : String) (v : Option JVal) : List (String × JVal) :=
  match v with
  | some x => [(key, x)]
  | none => []

/-- A key included only when its value is truthy (`if (args.key) { … }`
around the assignment). -/
def truthyEntry (key : String) (v : Option JVal) : List (String × JVal) :=
  match v with
  | some x => if x.truthy then [(key, x)] else []
  | none => []

/-- The `customers: {…}` body of `create_customer`: the three identity
fields as supplied, `company_name` only when a truthy string, and the
address block only when `address_line1` is a truthy string. -/
def createCustomerBody (a : Args) : JVal :=
  .obj [("customers", .obj (
    optEntry "email" (a.lookup "email") ++
    optEntry "given_name" (a.lookup "given_name") ++
    optEntry "family_name" (a.lookup "family_name") ++
    (match a.lookup "company_name" with
     | some (.str s) => if s ≠ "" then [("company_name", JVal.str s)] else []
     | _ => []) ++
    (match a.lookup "address_line1" with
     | some (.str s) =>
        if s ≠ "" then
          [("address_line1", JVal.str s)] ++
          optEntry "city" (a.lookup "city") ++
          optEntry "postal_code" (a.lookup "postal_code") ++
          optEntry "country_code" (a.lookup "country_code")
        else []
     | _ => [])))]

/-- The `redirect_flows: {…}` body of `create_redirect_flow`;
`prefilled_customer` is copied when present and of object type (a falsy
`null` fails the `args.prefilled_customer &&` guard). -/
def createRedirectFlowBody (a : Args) : JVal :=
  .obj [("redirect_flows", .obj (
    optEntry "description" (a.lookup "description") ++
    optEntry "session_token" (a.lookup "session_token") ++
    optEntry "success_redirect_url" (a.lookup "success_redirect_url") ++
    (match a.lookup "prefilled_customer" with
     | some (.obj fields) => [("prefilled_customer", JVal.obj fields)]
     | _ => [])))]

/-- The `billing_requests: {…}` body of `create_billing_request`:
`purpose_code: 'utility'`, a payment request, and a mandate request whose
payer block is attached only when `customer_email` is truthy. -/
def createBillingRequestBody (a : Args) : JVal :=
  .obj [("billing_requests", .obj
    [("purpose_code", JVal.str "utility"),
     ("payment_request", .obj (
        optEntry "amount" (a.lookup "amount_cents") ++
        optEntry "currency" (a.lookup "currency") ++
        optEntry "description" (a.lookup "description") ++
        truthyEntry "reference" (a.lookup "payment_reference"))),
     ("mandate_request", .obj (
        optEntry "currency" (a.lookup "currency") ++
        (match a.lookup "customer_email" with
         | some v =>
            if v.truthy then
              [("payer", JVal.obj (
                 [("email", v)] ++
                 optEntry "given_name" (a.lookup "customer_given_name") ++
                 optEntry "family_name" (a.lookup "customer_family_name") ++
                 truthyEntry "company_name" (a.lookup "customer_company_name")))]
            else []
         | none => [])))])]

/-- The `billing_request_flows: {…}` body of `create_billing_request_flow`;
`exit_uri` is copied when truthy, `show_redirect_buttons` whenever the key
is present at all (`!== undefined`), even when `false`. -/
def createBRFlowBody (a : Args) : JVal :=
  .obj [("billing_request_flows", .obj (
    optEntry "redirect_uri" (a.lookup "redirect_uri") ++
    [("links", JVal.obj (optEntry "billing_request" (a.lookup "billing_request_id")))] ++
    truthyEntry "exit_uri" (a.lookup "exit_uri") ++
    optEntry "show_redirect_buttons" (a.lookup "show_redirect_buttons")))]

/-! ## Text rendering -/

/-- `x || fallback` on an optional string field. -/
def orDefault (v : Option String) (fallback : String) : String :=
  match v with
  | some s => if s ≠ "" then s else fallback
  | none => fallback

/-- `(cents / 100).toFixed(2)` for a non-negative integer minor-unit
amount: integer part, a dot, and the remainder padded to two digits. -/
def formatAmount (cents : Nat) : String :=
  toString (cents / 100) ++ "." ++
    (if cents % 100 < 10 then "0" else "") ++ toString (cents % 100)

/-- `(Number(args.amount_cents) / 100).toFixed(2)`: integer arguments
render through `formatAmount` with the sign carried out front; a
non-numeric model value renders as `NaN` (string-to-number coercion is
outside the model and exercised by no claim). -/
def amountCentsText (a : Args) : String :=
  match a.lookup "amount_cents" with
  | some (.num n) => (if n < 0 then "-" else "") ++ formatAmount n.natAbs
  | _ => "NaN"

/-- `request.payment_request?.currency || 'N/A'`. -/
def optCurrency (pr : Option PaymentRequest) : String :=
  match pr with
  | some q => orDefault q.currency "N/A"
  | none => "N/A"

/-- `request.payment_request?.amount ? (… / 100).toFixed(2) : 'N/A'`
(a zero amount is falsy and renders as `N/A`). -/
def optAmount (pr : Option PaymentRequest) : String :=
  match pr with
  | some q =>
      match q.amount with
      | some a => if a ≠ 0 then formatAmount a else "N/A"
      | none => "N/A"
  | none => "N/A"

/-- `request.payment_request?.description || 'No description'`. -/
def optDescription (pr : Option PaymentRequest) : String :=
  match pr with
  | some q => orDefault q.description "No description"
  | none => "No description"

/-- One `list_customers` bullet. -/
def renderCustomerLine (c : Customer) : String :=
  "• " ++ c.given_name ++ " " ++ c.family_name ++ " (" ++ c.email ++ ")\n" ++
  "  ID: " ++ c.id ++ "\n" ++
  "  Created: " ++ c.created_at

/-- The `list_customers` text: always the `Found N customers` enumeration,
with no special case for an empty list. -/
def listCustomersText (cs : List Customer) : String :=
  "Found " ++ toString cs.length ++ " customers:\n\n" ++
  String.intercalate "\n\n" (cs.map renderCustomerLine)

def createCustomerText (c : Customer) : String :=
  "Successfully created customer:\n\n" ++
  "Name: " ++ c.given_name ++ " " ++ c.family_name ++ "\n" ++
  "Email: " ++ c.email ++ "\n" ++
  "ID: " ++ c.id ++ "\n" ++
  "Created: " ++ c.created_at

def getCustomerText (c : Customer) : String :=
  "Customer Details:\n\n" ++
  "Name: " ++ c.given_name ++ " " ++ c.family_name ++ "\n" ++
  "Email: " ++ c.email ++ "\n" ++
  "ID: " ++ c.id ++ "\n" ++
  "Created: " ++ c.created_at ++ "\n" ++
  "Language: " ++ c.language ++ "\n" ++
  "Metadata: " ++ c.metadata

def bankAccountLine (acct : BankAccount) : String :=
  "• Account ending in " ++ acct.account_number_ending ++ "\n" ++
  "  ID: " ++ acct.id ++ "\n" ++
  "  Bank: " ++ acct.bank_name ++ "\n" ++
  "  Status: " ++ (if acct.enabled then "Active" else "Inactive")

def createRedirectFlowText (flow : RedirectFlow) : String :=
  "Successfully created redirect flow:\n\n" ++
  "ID: " ++ flow.id ++ "\n" ++
  "Redirect URL: " ++ flow.redirect_url ++ "\n\n" ++
  "Send your customer to the redirect URL to collect their bank details. " ++
  "After they complete the process, you'll need to complete the redirect flow " ++
  "to create the mandate and customer bank account."

def renderPaymentLine (p : Payment) : String :=
  "• Amount: " ++ p.currency ++ " " ++ formatAmount p.amount ++ "\n" ++
  "  ID: " ++ p.id ++ "\n" ++
  "  Status: " ++ p.status ++ "\n" ++
  "  Created: " ++ p.created_at ++ "\n" ++
  "  Description: " ++ orDefault p.description "No description"

def createBillingRequestText (a : Args) (br : BillingRequest) : String :=
  "Successfully created billing request:\n\n" ++
  "ID: " ++ br.id ++ "\n" ++
  "Amount: " ++ argToString (some a) "currency" ++ " " ++ amountCentsText a ++ "\n" ++
  "Status: " ++ br.status ++ "\n" ++
  "Description: " ++ argToString (some a) "description" ++ "\n" ++
  "Created: " ++ br.created_at ++ "\n\n" ++
  "Next step: Create a billing request flow to collect customer authorization."

def createBRFlowText (flow : BRFlow) : String :=
  "Successfully created billing request flow:\n\n" ++
  "Flow ID: " ++ flow.id ++ "\n" ++
  "Authorisation URL: " ++ flow.authorisation_url ++ "\n" ++
  "Expires: " ++ flow.expires_at ++ "\n\n" ++
  "Send your customer to the authorisation URL to complete payment setup. " ++
  "After they complete the process, you can fulfil the billing request to create the payment."

def getBillingRequestText (br : BillingRequest) : String :=
  "Billing Request Details:\n\n" ++
  "ID: " ++ br.id ++ "\n" ++
  "Status: " ++ br.status ++ "\n" ++
  "Amount: " ++ optCurrency br.payment_request ++ " " ++ optAmount br.payment_request ++ "\n" ++
  "Description: " ++ optDescription br.payment_request ++ "\n" ++
  "Created: " ++ br.created_at ++ "\n" ++
  "Purpose: " ++ br.purpose_code ++ "\n" ++
  "Reference: " ++ (match br.payment_request with
                    | some q => orDefault q.reference "None"
                    | none => "None") ++ "\n" ++
  "Metadata: " ++ br.metadata

def renderBillingRequestLine (br : BillingRequest) : String :=
  "• Amount: " ++ optCurrency br.payment_request ++ " " ++ optAmount br.payment_request ++ "\n" ++
  "  ID: " ++ br.id ++ "\n" ++
  "  Status: " ++ br.status ++ "\n" ++
  "  Created: " ++ br.created_at ++ "\n" ++
  "  Description: " ++ optDescription br.payment_request

def fulfilBillingRequestText (br : BillingRequest) : String :=
  "Successfully fulfilled billing request:\n\n" ++
  "ID: " ++ br.id ++ "\n" ++
  "Status: " ++ br.status ++ "\n" ++
  "Payment created: " ++ (if br.status = "fulfilled" then "Yes" else "No") ++ "\n\n" ++
  "The billing request has been processed and payment collection has been initiated."

/-! ## The per-tool handlers (the `switch` cases of the call handler) -/

/-- `case 'list_customers'`:  GET `/customers?{limit,after}`; the response
is always rendered as the `Found N customers` enumeration. -/
def listCustomersHandler (args : OptArgs) (up : Upstream) :
    ToolResult × Option HttpRequest :=
  finishCall ⟨"/customers", limitParam args ++ strParam args "after", "GET", none⟩ up
    fun data =>
      match data with
      | .customers cs => okResult (listCustomersText cs)
      | _ => shapeError

/-- `case 'create_customer'`: only the complete absence of the arguments
object is guarded (`if (!args) throw …`); with an arguments object present
the body is built from whatever fields exist and the request is issued. -/
def createCustomerHandler (args : OptArgs) (up : Upstream) :
    ToolResult × Option HttpRequest :=
  match args with
  | none => (errResult "Arguments required for create_customer", none)
  | some a =>
      finishCall ⟨"/customers", [], "POST", some (createCustomerBody a)⟩ up
        fun data =>
          match data with
          | .customer c => okResult (createCustomerText c)
          | _ => shapeError

/-- `case 'get_customer'`: `if (!args?.customer_id) throw …`, then GET
`/customers/${args.customer_id}`. -/
def getCustomerHandler (args : OptArgs) (up : Upstream) :
    ToolResult × Option HttpRequest :=
  if argTruthy args "customer_id" then
    finishCall ⟨"/customers/" ++ argToString args "customer_id", [], "GET", none⟩ up
      fun data =>
        match data with
        | .customer c => okResult (getCustomerText c)
        | _ => shapeError
  else (errResult "customer_id is required", none)

/-- `case 'list_customer_bank_accounts'`: GET
`/customer_bank_accounts?customer=${args.customer_id}`, with a fixed
sentence on an empty list. -/
def listBankAccountsHandler (args : OptArgs) (up : Upstream) :
    ToolResult × Option HttpRequest :=
  if argTruthy args "customer_id" then
    finishCall ⟨"/customer_bank_accounts",
        [("customer", argToString args "customer_id")], "GET", none⟩ up
      fun data =>
        match data with
        | .bankAccounts accounts =>
            if accounts.length = 0 then
              okResult "No bank accounts found for this customer. They may need to complete a redirect flow to add their bank details."
            else
              okResult ("Found " ++ toString accounts.length ++ " bank account(s):\n\n" ++
                String.intercalate "\n\n" (accounts.map bankAccountLine))
        | _ => shapeError
  else (errResult "customer_id is required", none)

/-- `case 'create_redirect_flow'`: guarded only by `if (!args)`. -/
def createRedirectFlowHandler (args : OptArgs) (up : Upstream) :
    ToolResult × Option HttpRequest :=
  match args with
  | none => (errResult "Arguments required for create_redirect_flow", none)
  | some a =>
      finishCall ⟨"/redirect_flows", [], "POST", some (createRedirectFlowBody a)⟩ up
        fun data =>
          match data with
          | .redirectFlow flow => okResult (createRedirectFlowText flow)
          | _ => shapeError

/-- `case 'list_payments'`: GET `/payments?{limit,customer,status}`, with a
fixed sentence on an empty list. -/
def listPaymentsHandler (args : OptArgs) (up : Upstream) :
    ToolResult × Option HttpRequest :=
  finishCall ⟨"/payments",
      limitParam args ++ strParam args "customer" ++ strParam args "status",
      "GET", none⟩ up
    fun data =>
      match data with
      | .payments ps =>
          if ps.length = 0 then
            okResult "No payments found matching the criteria."
          else
            okResult ("Found " ++ toString ps.length ++ " payment(s):\n\n" ++
              String.intercalate "\n\n" (ps.map renderPaymentLine))
      | _ => shapeError

/-- `case 'create_billing_request'`: guarded only by `if (!args)`. -/
def createBillingRequestHandler (args : OptArgs) (up : Upstream) :
    ToolResult × Option HttpRequest :=
  match args with
  | none => (errResult "Arguments required for create_billing_request", none)
  | some a =>
      finishCall ⟨"/billing_requests", [], "POST", some (createBillingRequestBody a)⟩ up
        fun data =>
          match data with
          | .billingRequest br => okResult (createBillingRequestText a br)
          | _ => shapeError

/-- `case 'create_billing_request_flow'`: guarded only by `if (!args)`. -/
def createBRFlowHandler (args : OptArgs) (up : Upstream) :
    ToolResult × Option HttpRequest :=
  match args with
  | none => (errResult "Arguments required for create_billing_request_flow", none)
  | some a =>
      finishCall ⟨"/billing_request_flows", [], "POST", some (createBRFlowBody a)⟩ up
        fun data =>
          match data with
          | .billingRequestFlow flow => okResult (createBRFlowText flow)
          | _ => shapeError

/-- `case 'get_billing_request'`: `if (!args?.billing_request_id) throw …`,
then GET `/billing_requests/${args.billing_request_id}`. -/
def getBillingRequestHandler (args : OptArgs) (up : Upstream) :
    ToolResult × Option HttpRequest :=
  if argTruthy args "billing_request_id" then
    finishCall ⟨"/billing_requests/" ++ argToString args "billing_request_id",
        [], "GET", none⟩ up
      fun data =>
        match data with
        | .billingRequest br => okResult (getBillingRequestText br)
        | _ => shapeError
  else (errResult "billing_request_id is required", none)

/-- `case 'list_billing_requests'`: GET
`/billing_requests?{limit,status,customer}`, with a fixed sentence on an
empty list. -/
def listBillingRequestsHandler (args : OptArgs) (up : Upstream) :
    ToolResult × Option HttpRequest :=
  finishCall ⟨"/billing_requests",
      limitParam args ++ strParam args "status" ++ strParam args "customer",
      "GET", none⟩ up
    fun data =>
      match data with
      | .billingRequests brs =>
          if brs.length = 0 then
            okResult "No billing requests found matching the criteria."
          else
            okResult ("Found " ++ toString brs.length ++ " billing request(s):\n\n" ++
              String.intercalate "\n\n" (brs.map renderBillingRequestLine))
      | _ => shapeError

/-- `case 'fulfil_billing_request'`: `if (!args?.billing_request_id)
throw …`, then POST
`/billing_requests/${args.billing_request_id}/actions/fulfil` with an
empty JSON object body. -/
def fulfilBillingRequestHandler (args : OptArgs) (up : Upstream) :
    ToolResult × Option HttpRequest :=
  if argTruthy args "billing_request_id" then
    finishCall ⟨"/billing_requests/" ++ argToString args "billing_request_id" ++
        "/actions/fulfil", [], "POST", some (.obj [])⟩ up
      fun data =>
        match data with
        | .billingRequest br => okResult (fulfilBillingRequestText br)
        | _ => shapeError
  else (errResult "billing_request_id is required", none)

/-! ## The dispatcher (`CallToolRequestSchema` handler) -/

/-- The success-shaped missing-credentials text (note the `Error: `
prefix despite `isError` not being set). -/
def missingTokenText : String :=
  "Error: GOCARDLESS_ACCESS_TOKEN environment variable is not set. Please configure your GoCardless access token."

/-- The `CallToolRequestSchema` handler: the access-token short-circuit,
then the `switch` on the tool name, with unknown names thrown and caught
as `Error: Unknown tool: ${name}`.  The second component records the
single outbound HTTP request, `none` when no network call occurs. -/
def callTool (cfg : Config) (name : String) (args : OptArgs) (up : Upstream) :
    ToolResult × Option HttpRequest :=
  if cfg.accessToken = "" then
    ({ content := [{ type := "text", text := missingTokenText }], isError := false }, none)
  else if name = "list_customers" then listCustomersHandler args up
  else if name = "create_customer" then createCustomerHandler args up
  else if name = "get_customer" then getCustomerHandler args up
  else if name = "list_customer_bank_accounts" then listBankAccountsHandler args up
  else if name = "create_redirect_flow" then createRedirectFlowHandler args up
  else if name = "list_payments" then listPaymentsHandler args up
  else if name = "create_billing_request" then createBillingRequestHandler args up
  else if name = "create_billing_request_flow" then createBRFlowHandler args up
  else if name = "get_billing_request" then getBillingRequestHandler args up
  else if name = "list_billing_requests" then listBillingRequestsHandler args up
  else if name = "fulfil_billing_request" then fulfilBillingRequestHandler args up
  else (errResult ("Unknown tool: " ++ name), none)

/-! ## The schema registry (`tools` and the `ListToolsRequestSchema`
handler) -/

/-- A node of an `inputSchema` declaration: the coarse type, the
documentation string, and the declared `format`/`enum`/`default`
annotations.  An object schema that declares no `required` key (the
listing tools) is modelled with an empty required list. -/
inductive Schema where
  | str (description : Option String) (format : Option String)
      (enum : Option (List String)) : Schema
  | num (description : Option String) (default : Option Int) : Schema
  | bool (description : Option String) (default : Option Bool) : Schema
  | obj (description : Option String) (properties : List (String × Schema))
      (required : List String) : Schema

/-- The `required` set a schema declares. -/
def Schema.requiredSet : Schema → List String
  | .obj _ _ r => r
  | _ => []

/-- One entry of the `tools` array. -/
structure ToolDef where
  name : String
  description : String
  inputSchema : Schema

/-- The static `tools` registry, in source order. -/
def tools : List ToolDef := [
  { name := "list_customers",
    description := "List customers from GoCardless. Useful for finding existing customers before creating payments.",
    inputSchema := .obj none
      [("limit", .num (some "Maximum number of customers to return (default: 50, max: 500)") (some 50)),
       ("after", .str (some "Cursor for pagination - get customers after this ID") none none)]
      [] },
  { name := "create_customer",
    description := "Create a new customer in GoCardless. Required before setting up payments.",
    inputSchema := .obj none
      [("email", .str (some "Customer email address") (some "email") none),
       ("given_name", .str (some "Customer first name") none none),
       ("family_name", .str (some "Customer last name") none none),
       ("company_name", .str (some "Company name (optional)") none none),
       ("address_line1", .str (some "First line of address") none none),
       ("city", .str (some "City") none none),
       ("postal_code", .str (some "Postal/ZIP code") none none),
       ("country_code", .str (some "Two-letter country code (e.g., GB, US)") none none)]
      ["email", "given_name", "family_name"] },
  { name := "get_customer",
    description := "Get details of a specific customer by their ID.",
    inputSchema := .obj none
      [("customer_id", .str (some "The GoCardless customer ID") none none)]
      ["customer_id"] },
  { name := "list_customer_bank_accounts",
    description := "List bank accounts (mandates) for a specific customer.",
    inputSchema := .obj none
      [("customer_id", .str (some "The GoCardless customer ID") none none)]
      ["customer_id"] },
  { name := "create_redirect_flow",
    description := "Create a redirect flow to collect customer bank details. This generates a URL where customers can securely enter their bank account information.",
    inputSchema := .obj none
      [("description", .str (some "Description of what the payment is for") none none),
       ("session_token", .str (some "Unique session token to prevent CSRF attacks") none none),
       ("success_redirect_url", .str (some "URL to redirect to after successful setup") (some "uri") none),
       ("prefilled_customer", .obj (some "Pre-fill customer information")
         [("given_name", .str none none none),
          ("family_name", .str none none none),
          ("email", .str none (some "email") none),
          ("company_name", .str none none none)]
         [])]
      ["description", "session_token", "success_redirect_url"] },
  { name := "list_payments",
    description := "List payments from GoCardless. Useful for checking payment status and history.",
    inputSchema := .obj none
      [("limit", .num (some "Maximum number of payments to return (default: 50)") (some 50)),
       ("customer", .str (some "Filter by customer ID") none none),
       ("status", .str (some "Filter by payment status") none
         (some ["pending_customer_approval", "pending_submission", "submitted",
                "confirmed", "paid_out", "cancelled", "customer_approval_denied",
                "failed", "charged_back"]))]
      [] },
  { name := "create_billing_request",
    description := "Create a billing request for collecting payments. This is the modern GoCardless approach for payment collection that combines mandate setup and payment creation.",
    inputSchema := .obj none
      [("amount_cents", .num (some "Payment amount in cents/pence (e.g., 2999 for £29.99)") none),
       ("currency", .str (some "Payment currency (e.g., GBP, EUR, USD)") none
         (some ["GBP", "EUR", "USD", "SEK", "DKK", "AUD", "NZD"])),
       ("description", .str (some "Description of what the payment is for") none none),
       ("customer_email", .str (some "Customer email address") (some "email") none),
       ("customer_given_name", .str (some "Customer first name") none none),
       ("customer_family_name", .str (some "Customer last name") none none),
       ("customer_company_name", .str (some "Customer company name (optional)") none none),
       ("payment_reference", .str (some "Reference for the payment (optional)") none none)]
      ["amount_cents", "currency", "description", "customer_email",
       "customer_given_name", "customer_family_name"] },
  { name := "create_billing_request_flow",
    description := "Create a billing request flow to collect customer details and authorize payments. This generates a URL where customers can complete the entire payment setup process.",
    inputSchema := .obj none
      [("billing_request_id", .str (some "The ID of the billing request to create a flow for") none none),
       ("redirect_uri", .str (some "URL to redirect customer to after completing the flow") (some "uri") none),
       ("exit_uri", .str (some "URL to redirect customer to if they exit the flow (optional)") (some "uri") none),
       ("session_token", .str (some "Unique session token to prevent CSRF attacks") none none),
       ("show_redirect_buttons", .bool (some "Whether to show redirect buttons in the flow (default: true)") (some true))]
      ["billing_request_id", "redirect_uri", "session_token"] },
  { name := "get_billing_request",
    description := "Get details of a specific billing request by its ID, including status and any associated payments.",
    inputSchema := .obj none
      [("billing_request_id", .str (some "The GoCardless billing request ID") none none)]
      ["billing_request_id"] },
  { name := "list_billing_requests",
    description := "List billing requests from GoCardless. Useful for monitoring payment collection status.",
    inputSchema := .obj none
      [("limit", .num (some "Maximum number of billing requests to return (default: 50)") (some 50)),
       ("status", .str (some "Filter by billing request status") none
         (some ["pending", "ready_to_fulfil", "fulfilled", "cancelled"])),
       ("customer", .str (some "Filter by customer ID") none none)]
      [] },
  { name := "fulfil_billing_request",
    description := "Fulfil a billing request to create the actual payment. Call this after the customer has completed the billing request flow.",
    inputSchema := .obj none
      [("billing_request_id", .str (some "The GoCardless billing request ID to fulfil") none none)]
      ["billing_request_id"] }]

/-- The `ListToolsRequestSchema` handler: returns the registry as is. -/
def listTools : List ToolDef := tools

/-- The names of the registered tools, in registry order. -/
def toolNames : List String := tools.map ToolDef.name

/-! ## Helper lemmas -/

/-- The result consists of a single text block. -/
def oneTextBlock (r : ToolResult) : Prop :=
  ∃ t, r.content = [{ type := "text", text := t }]

theorem oneTextBlock_okResult (t : String) : oneTextBlock (okResult t) :=
  ⟨t, rfl⟩

theorem oneTextBlock_errResult (msg : String) : oneTextBlock (errResult msg) :=
  ⟨"Error: " ++ msg, rfl⟩

theorem oneTextBlock_shapeError : oneTextBlock shapeError :=
  oneTextBlock_errResult _

theorem oneTextBlock_finishCall (req : HttpRequest) (up : Upstream)
    (render : ApiData → ToolResult) (h : ∀ d, oneTextBlock (render d)) :
    oneTextBlock (finishCall req up render).1 := by
  cases up with
  | ok d => exact h d
  | httpFailure status statusText body => exact oneTextBlock_errResult _
  | transportFailure message => exact oneTextBlock_errResult _

theorem oneTextBlock_listCustomers (args : OptArgs) (up : Upstream) :
    oneTextBlock (listCustomersHandler args up).1 := by
  refine oneTextBlock_finishCall _ _ _ fun d => ?_
  cases d <;> first | exact oneTextBlock_okResult _ | exact oneTextBlock_shapeError

theorem oneTextBlock_createCustomer (args : OptArgs) (up : Upstream) :
    oneTextBlock (createCustomerHandler args up).1 := by
  cases args with
  | none => exact oneTextBlock_errResult _
  | some a =>
      refine oneTextBlock_finishCall _ _ _ fun d => ?_
      cases d <;> first | exact oneTextBlock_okResult _ | exact oneTextBlock_shapeError

theorem oneTextBlock_getCustomer (args : OptArgs) (up : Upstream) :
    oneTextBlock (getCustomerHandler args up).1 := by
  unfold getCustomerHandler
  split
  · refine oneTextBlock_finishCall _ _ _ fun d => ?_
    cases d <;> first | exact oneTextBlock_okResult _ | exact oneTextBlock_shapeError
  · exact oneTextBlock_errResult _

theorem oneTextBlock_listBankAccounts (args : OptArgs) (up : Upstream) :
    oneTextBlock (listBankAccountsHandler args up).1 := by
  unfold listBankAccountsHandler
  split
  · refine oneTextBlock_finishCall _ _ _ fun d => ?_
    cases d with
    | bankAccounts accounts =>
        by_cases hlen : accounts.length = 0 <;>
          simp [hlen, oneTextBlock_okResult]
    | _ => exact oneTextBlock_shapeError
  · exact oneTextBlock_errResult _

theorem oneTextBlock_createRedirectFlow (args : OptArgs) (up : Upstream) :
    oneTextBlock (createRedirectFlowHandler args up).1 := by
  cases args with
  | none => exact oneTextBlock_errResult _
  | some a =>
      refine oneTextBlock_finishCall _ _ _ fun d => ?_
      cases d <;> first | exact oneTextBlock_okResult _ | exact oneTextBlock_shapeError

theorem oneTextBlock_listPayments (args : OptArgs) (up : Upstream) :
    oneTextBlock (listPaymentsHandler args up).1 := by
  refine oneTextBlock_finishCall _ _ _ fun d => ?_
  cases d with
  | payments ps => by_cases hlen : ps.length = 0 <;> simp [hlen, oneTextBlock_okResult]
  | _ => exact oneTextBlock_shapeError

theorem oneTextBlock_createBillingRequest (args : OptArgs) (up : Upstream) :
    oneTextBlock (createBillingRequestHandler args up).1 := by
  cases args with
  | none => exact oneTextBlock_errResult _
  | some a =>
      refine oneTextBlock_finishCall _ _ _ fun d => ?_
      cases d <;> first | exact oneTextBlock_okResult _ | exact oneTextBlock_shapeError

theorem oneTextBlock_createBRFlow (args : OptArgs) (up : Upstream) :
    oneTextBlock (createBRFlowHandler args up).1 := by
  cases args with
  | none => exact oneTextBlock_errResult _
  | some a =>
      refine oneTextBlock_finishCall _ _ _ fun d => ?_
      cases d <;> first | exact oneTextBlock_okResult _ | exact oneTextBlock_shapeError

theorem oneTextBlock_getBillingRequest (args : OptArgs) (up : Upstream) :
    oneTextBlock (getBillingRequestHandler args up).1 := by
  unfold getBillingRequestHandler
  split
  · refine oneTextBlock_finishCall _ _ _ fun d => ?_
    cases d <;> first | exact oneTextBlock_okResult _ | exact oneTextBlock_shapeError
  · exact oneTextBlock_errResult _

theorem oneTextBlock_listBillingRequests (args : OptArgs) (up : Upstream) :
    oneTextBlock (listBillingRequestsHandler args up).1 := by
  refine oneTextBlock_finishCall _ _ _ fun d => ?_
  cases d with
  | billingRequests brs => by_cases hlen : brs.length = 0 <;> simp [hlen, oneTextBlock_okResult]
  | _ => exact oneTextBlock_shapeError

theorem oneTextBlock_fulfilBillingRequest (args : OptArgs) (up : Upstream) :
    oneTextBlock (fulfilBillingRequestHandler args up).1 := by
  unfold fulfilBillingRequestHandler
  split
  · refine oneTextBlock_finishCall _ _ _ fun d => ?_
    cases d <;> first | exact oneTextBlock_okResult _ | exact oneTextBlock_shapeError
  · exact oneTextBlock_errResult _

theorem oneTextBlock_callTool (cfg : Config) (name : String) (args : OptArgs)
    (up : Upstream) : oneTextBlock (callTool cfg name args up).1 := by
  unfold callTool
  by_cases h0 : cfg.accessToken = ""
  · rw [if_pos h0]; exact ⟨missingTokenText, rfl⟩
  rw [if_neg h0]
  by_cases h1 : name = "list_customers"
  · rw [if_pos h1]; exact oneTextBlock_listCustomers args up
  rw [if_neg h1]
  by_cases h2 : name = "create_customer"
  · rw [if_pos h2]; exact oneTextBlock_createCustomer args up
  rw [if_neg h2]
  by_cases h3 : name = "get_customer"
  · rw [if_pos h3]; exact oneTextBlock_getCustomer args up
  rw [if_neg h3]
  by_cases h4 : name = "list_customer_bank_accounts"
  · rw [if_pos h4]; exact oneTextBlock_listBankAccounts args up
  rw [if_neg h4]
  by_cases h5 : name = "create_redirect_flow"
  · rw [if_pos h5]; exact oneTextBlock_createRedirectFlow args up
  rw [if_neg h5]
  by_cases h6 : name = "list_payments"
  · rw [if_pos h6]; exact oneTextBlock_listPayments args up
  rw [if_neg h6]
  by_cases h7 : name = "create_billing_request"
  · rw [if_pos h7]; exact oneTextBlock_createBillingRequest args up
  rw [if_neg h7]
  by_cases h8 : name = "create_billing_request_flow"
  · rw [if_pos h8]; exact oneTextBlock_createBRFlow args up
  rw [if_neg h8]
  by_cases h9 : name = "get_billing_request"
  · rw [if_pos h9]; exact oneTextBlock_getBillingRequest args up
  rw [if_neg h9]
  by_cases h10 : name = "list_billing_requests"
  · rw [if_pos h10]; exact oneTextBlock_listBillingRequests args up
  rw [if_neg h10]
  by_cases h11 : name = "fulfil_billing_request"
  · rw [if_pos h11]; exact oneTextBlock_fulfilBillingRequest args up
  rw [if_neg h11]
  exact oneTextBlock_errResult _

/-- Claim C9: for every tool invocation — any tool name, any arguments,
and any adapter outcome (success, non-2xx failure, transport failure) —
the `ToolResult` returned by `callTool` contains exactly one content
block, and that block has type `text`. -/
theorem single_text_block_envelope (cfg : Config) (name : String)
    (args : OptArgs) (up : Upstream) :
    (callTool cfg name args up).1.content.length = 1 ∧
    ∀ blk ∈ (callTool cfg name args up).1.content, blk.type = "text" := by
  obtain ⟨t, ht⟩ := oneTextBlock_callTool cfg name args up
  refine ⟨?_, ?_⟩ <;> simp [ht]

/-! ## Dispatch lemmas: with a configured token, each registered name
routes to its handler -/

theorem dispatch_list_customers (cfg : Config) (h : ¬ cfg.accessToken = "")
    (args : OptArgs) (up : Upstream) :
    callTool cfg "list_customers" args up = listCustomersHandler args up := by
  simp [callTool, h]

theorem dispatch_create_customer (cfg : Config) (h : ¬ cfg.accessToken = "")
    (args : OptArgs) (up : Upstream) :
    callTool cfg "create_customer" args up = createCustomerHandler args up := by
  simp [callTool, h]

theorem dispatch_get_customer (cfg : Config) (h : ¬ cfg.accessToken = "")
    (args : OptArgs) (up : Upstream) :
    callTool cfg "get_customer" args up = getCustomerHandler args up := by
  simp [callTool, h]

theorem dispatch_list_bank_accounts (cfg : Config) (h : ¬ cfg.accessToken = "")
    (args : OptArgs) (up : Upstream) :
    callTool cfg "list_customer_bank_accounts" args up = listBankAccountsHandler args up := by
  simp [callTool, h]

theorem dispatch_create_redirect_flow (cfg : Config) (h : ¬ cfg.accessToken = "")
    (args : OptArgs) (up : Upstream) :
    callTool cfg "create_redirect_flow" args up = createRedirectFlowHandler args up := by
  simp [callTool, h]

theorem dispatch_list_payments (cfg : Config) (h : ¬ cfg.accessToken = "")
    (args : OptArgs) (up : Upstream) :
    callTool cfg "list_payments" args up = listPaymentsHandler args up := by
  simp [callTool, h]

theorem dispatch_create_billing_request (cfg : Config) (h : ¬ cfg.accessToken = "")
    (args : OptArgs) (up : Upstream) :
    callTool cfg "create_billing_request" args up = createBillingRequestHandler args up := by
  simp [callTool, h]

theorem dispatch_create_br_flow (cfg : Config) (h : ¬ cfg.accessToken = "")
    (args : OptArgs) (up : Upstream) :
    callTool cfg "create_billing_request_flow" args up = createBRFlowHandler args up := by
  simp [callTool, h]

theorem dispatch_get_billing_request (cfg : Config) (h : ¬ cfg.accessToken = "")
    (args : OptArgs) (up : Upstream) :
    callTool cfg "get_billing_request" args up = getBillingRequestHandler args up := by
  simp [callTool, h]

theorem dispatch_list_billing_requests (cfg : Config) (h : ¬ cfg.accessToken = "")
    (args : OptArgs) (up : Upstream) :
    callTool cfg "list_billing_requests" args up = listBillingRequestsHandler args up := by
  simp [callTool, h]

theorem dispatch_fulfil_billing_request (cfg : Config) (h : ¬ cfg.accessToken = "")
    (args : OptArgs) (up : Upstream) :
    callTool cfg "fulfil_billing_request" args up = fulfilBillingRequestHandler args up := by
  simp [callTool, h]

/-- Claim C4: for every tool name and every argument mapping, when the
configured access token is the empty string `callTool` returns a result
that is NOT error-flagged, whose text mentions the missing access-token
configuration (`GOCARDLESS_ACCESS_TOKEN`), and no HTTP request is
issued. -/
theorem missing_token_short_circuit (cfg : Config) (h : cfg.accessToken = "")
    (name : String) (args : OptArgs) (up : Upstream) :
    (callTool cfg name args up).1.isError = false ∧
    (callTool cfg name args up).2 = none ∧
    (callTool cfg name args up).1.content = [{ type := "text", text := missingTokenText }] ∧
    missingTokenText =
      "Error: " ++ "GOCARDLESS_ACCESS_TOKEN" ++
        " environment variable is not set. Please configure your GoCardless access token." := by
  unfold callTool
  rw [if_pos h]
  exact ⟨rfl, rfl, rfl, rfl⟩

/-- Witness for C4 at a concrete invocation with an empty token. -/
theorem missing_token_short_circuit_witness :
    (callTool ⟨"sandbox", ""⟩ "create_customer" none (.transportFailure "boom")).1.isError = false ∧
    (callTool ⟨"sandbox", ""⟩ "create_customer" none (.transportFailure "boom")).2 = none ∧
    (callTool ⟨"sandbox", ""⟩ "create_customer" none (.transportFailure "boom")).1.content =
      [{ type := "text", text := missingTokenText }] ∧
    missingTokenText =
      "Error: " ++ "GOCARDLESS_ACCESS_TOKEN" ++
        " environment variable is not set. Please configure your GoCardless access token." :=
  missing_token_short_circuit ⟨"sandbox", ""⟩ rfl "create_customer" none (.transportFailure "boom")

/-- Claim C5: base URL selection is a pure function of the configured
environment string: the live host exactly when it equals `"live"`, and
the sandbox host for `"sandbox"`, `"production"`, the empty string, or an
unset variable. -/
theorem base_url_selection :
    (∀ environment : String,
      getApiBaseUrl environment = "https://api.gocardless.com" ↔ environment = "live") ∧
    getApiBaseUrl "live" = "https://api.gocardless.com" ∧
    getApiBaseUrl "sandbox" = "https://api-sandbox.gocardless.com" ∧
    getApiBaseUrl "production" = "https://api-sandbox.gocardless.com" ∧
    getApiBaseUrl "" = "https://api-sandbox.gocardless.com" ∧
    getApiBaseUrl (configEnvironment none) = "https://api-sandbox.gocardless.com" ∧
    getApiBaseUrl (configEnvironment (some "")) = "https://api-sandbox.gocardless.com" := by
  refine ⟨fun environment => ?_, rfl, rfl, rfl, rfl, rfl, rfl⟩
  by_cases h : environment = "live" <;> simp [getApiBaseUrl, h]

/-- Claim C7: `listTools()` returns, without side effects and in a stable
order, the eleven tool definitions; each name appears exactly once and the
names are pairwise distinct. -/
theorem registry_names_unique :
    listTools.map ToolDef.name =
      ["list_customers", "create_customer", "get_customer",
       "list_customer_bank_accounts", "create_redirect_flow", "list_payments",
       "create_billing_request", "create_billing_request_flow",
       "get_billing_request", "list_billing_requests", "fulfil_billing_request"] ∧
    listTools.length = 11 ∧
    (listTools.map ToolDef.name).Nodup ∧
    ∀ n ∈ toolNames, (listTools.map ToolDef.name).count n = 1 := by
  exact ⟨rfl, rfl, by decide, by decide⟩

/-- Claim C10: the missing-credentials response is success-shaped
(`isError` unset) yet its text begins with the same `Error: ` prefix that
error-flagged results carry, so the text prefix and the `isError` flag do
not coincide for that outcome. -/
theorem missing_token_error_prefix_mismatch :
    (callTool ⟨"sandbox", ""⟩ "list_customers" none (.transportFailure "x")).1.isError = false ∧
    (∃ rest, (callTool ⟨"sandbox", ""⟩ "list_customers" none (.transportFailure "x")).1.content =
      [{ type := "text", text := "Error: " ++ rest }]) ∧
    (callTool ⟨"sandbox", "token"⟩ "unknown_tool" none (.transportFailure "x")).1.isError = true ∧
    (∃ rest, (callTool ⟨"sandbox", "token"⟩ "unknown_tool" none (.transportFailure "x")).1.content =
      [{ type := "text", text := "Error: " ++ rest }]) := by
  refine ⟨rfl,
    ⟨"GOCARDLESS_ACCESS_TOKEN environment variable is not set. Please configure your GoCardless access token.", ?_⟩,
    rfl, ⟨"Unknown tool: unknown_tool", ?_⟩⟩ <;> rfl

/-! ## C1: required-field validation -/

/-- Arguments for `create_customer` that supply names but omit the
required `email`. -/
def argsMissingEmail : OptArgs :=
  some [("given_name", .str "Ada"), ("family_name", .str "Lovelace")]

/-- Counterexample to claim C1: `email` is in `create_customer`'s declared
`required` set and absent from the arguments, yet `callTool` still invokes
the HTTP adapter (the recorded outbound request is not `none`) — the
handler only guards the complete absence of the arguments object. -/
theorem create_customer_missing_required_calls_adapter :
    (∃ t ∈ tools, t.name = "create_customer" ∧ "email" ∈ t.inputSchema.requiredSet) ∧
    getArg argsMissingEmail "email" = none ∧
    (callTool ⟨"sandbox", "token"⟩ "create_customer" argsMissingEmail
      (.transportFailure "connection refused")).2.isSome = true := by
  refine ⟨by decide, rfl, rfl⟩

/-- Claim C1 (amended): the guard the claim describes holds only for the
four tools whose handler checks its single required field by truthiness
(`get_customer`, `list_customer_bank_accounts`, `get_billing_request`,
`fulfil_billing_request`) — those return an error-flagged result with no
HTTP call when the field is missing — and for the create-style tools only
when the arguments object is entirely absent; when arguments are present
but an individual required field is missing, the create-style handlers
invoke the adapter anyway (see the counterexample). -/
theorem required_field_guard_amended (cfg : Config) (h : ¬ cfg.accessToken = "")
    (args : OptArgs) (up : Upstream)
    (hcid : argTruthy args "customer_id" = false)
    (hbid : argTruthy args "billing_request_id" = false) :
    callTool cfg "get_customer" args up = (errResult "customer_id is required", none) ∧
    callTool cfg "list_customer_bank_accounts" args up = (errResult "customer_id is required", none) ∧
    callTool cfg "get_billing_request" args up = (errResult "billing_request_id is required", none) ∧
    callTool cfg "fulfil_billing_request" args up = (errResult "billing_request_id is required", none) ∧
    callTool cfg "create_customer" none up = (errResult "Arguments required for create_customer", none) ∧
    callTool cfg "create_redirect_flow" none up = (errResult "Arguments required for create_redirect_flow", none) ∧
    callTool cfg "create_billing_request" none up = (errResult "Arguments required for create_billing_request", none) ∧
    callTool cfg "create_billing_request_flow" none up = (errResult "Arguments required for create_billing_request_flow", none) := by
  refine ⟨?_, ?_, ?_, ?_, ?_, ?_, ?_, ?_⟩
  · rw [dispatch_get_customer cfg h args up]
    simp [getCustomerHandler, hcid]
  · rw [dispatch_list_bank_accounts cfg h args up]
    simp [listBankAccountsHandler, hcid]
  · rw [dispatch_get_billing_request cfg h args up]
    simp [getBillingRequestHandler, hbid]
  · rw [dispatch_fulfil_billing_request cfg h args up]
    simp [fulfilBillingRequestHandler, hbid]
  · rw [dispatch_create_customer cfg h none up]; rfl
  · rw [dispatch_create_redirect_flow cfg h none up]; rfl
  · rw [dispatch_create_billing_request cfg h none up]; rfl
  · rw [dispatch_create_br_flow cfg h none up]; rfl

/-- Witness for the amended C1 at a concrete configuration and an empty
arguments object. -/
theorem required_field_guard_amended_witness :
    callTool ⟨"sandbox", "token"⟩ "get_customer" (some []) (.transportFailure "x") =
      (errResult "customer_id is required", none) ∧
    callTool ⟨"sandbox", "token"⟩ "list_customer_bank_accounts" (some []) (.transportFailure "x") =
      (errResult "customer_id is required", none) ∧
    callTool ⟨"sandbox", "token"⟩ "get_billing_request" (some []) (.transportFailure "x") =
      (errResult "billing_request_id is required", none) ∧
    callTool ⟨"sandbox", "token"⟩ "fulfil_billing_request" (some []) (.transportFailure "x") =
      (errResult "billing_request_id is required", none) ∧
    callTool ⟨"sandbox", "token"⟩ "create_customer" none (.transportFailure "x") =
      (errResult "Arguments required for create_customer", none) ∧
    callTool ⟨"sandbox", "token"⟩ "create_redirect_flow" none (.transportFailure "x") =
      (errResult "Arguments required for create_redirect_flow", none) ∧
    callTool ⟨"sandbox", "token"⟩ "create_billing_request" none (.transportFailure "x") =
      (errResult "Arguments required for create_billing_request", none) ∧
    callTool ⟨"sandbox", "token"⟩ "create_billing_request_flow" none (.transportFailure "x") =
      (errResult "Arguments required for create_billing_request_flow", none) :=
  required_field_guard_amended ⟨"sandbox", "token"⟩ (by decide) (some [])
    (.transportFailure "x") rfl rfl

/-! ## C2: zero-result rendering -/

/-- Counterexample to claim C2: with zero upstream customers,
`list_customers` renders the `Found 0 customers` enumeration — an empty
list rendering, not a fixed `No customers found` sentence (the handler has
no zero-result branch). -/
theorem list_customers_empty_renders_found_zero :
    (callTool ⟨"sandbox", "token"⟩ "list_customers" (some []) (.ok (.customers []))).1 =
      okResult "Found 0 customers:\n\n" := by
  rfl

/-- Claim C2 (amended): the fixed zero-result sentences exist for
`list_payments`, `list_billing_requests` (and also
`list_customer_bank_accounts`), each returned as a non-error result; but
`list_customers` — the third handler the claim names — always renders the
`Found N customers` enumeration, producing `Found 0 customers:` on an
empty response. -/
theorem empty_list_rendering_amended (cfg : Config) (h : ¬ cfg.accessToken = "")
    (args : OptArgs) (hcid : argTruthy args "customer_id" = true) :
    (callTool cfg "list_payments" args (.ok (.payments []))).1 =
      okResult "No payments found matching the criteria." ∧
    (callTool cfg "list_billing_requests" args (.ok (.billingRequests []))).1 =
      okResult "No billing requests found matching the criteria." ∧
    (callTool cfg "list_customer_bank_accounts" args (.ok (.bankAccounts []))).1 =
      okResult "No bank accounts found for this customer. They may need to complete a redirect flow to add their bank details." ∧
    (callTool cfg "list_customers" args (.ok (.customers []))).1 =
      okResult "Found 0 customers:\n\n" := by
  refine ⟨?_, ?_, ?_, ?_⟩
  · rw [dispatch_list_payments cfg h args _]; rfl
  · rw [dispatch_list_billing_requests cfg h args _]; rfl
  · rw [dispatch_list_bank_accounts cfg h args _]
    simp [listBankAccountsHandler, hcid, finishCall]
  · rw [dispatch_list_customers cfg h args _]; rfl

/-- Witness for the amended C2 at a concrete configuration with a
`customer_id` argument present. -/
theorem empty_list_rendering_amended_witness :
    (callTool ⟨"sandbox", "tok"⟩ "list_payments" (some [("customer_id", .str "CU123")])
      (.ok (.payments []))).1 = okResult "No payments found matching the criteria." ∧
    (callTool ⟨"sandbox", "tok"⟩ "list_billing_requests" (some [("customer_id", .str "CU123")])
      (.ok (.billingRequests []))).1 = okResult "No billing requests found matching the criteria." ∧
    (callTool ⟨"sandbox", "tok"⟩ "list_customer_bank_accounts" (some [("customer_id", .str "CU123")])
      (.ok (.bankAccounts []))).1 =
      okResult "No bank accounts found for this customer. They may need to complete a redirect flow to add their bank details." ∧
    (callTool ⟨"sandbox", "tok"⟩ "list_customers" (some [("customer_id", .str "CU123")])
      (.ok (.customers []))).1 = okResult "Found 0 customers:\n\n" :=
  empty_list_rendering_amended ⟨"sandbox", "tok"⟩ (by decide)
    (some [("customer_id", .str "CU123")]) rfl

/-! ## C3: the `limit` default -/

/-- Counterexample to claim C3: with `limit` omitted the outbound
`list_customers` request carries an empty query — in particular it does
not carry `limit=50`. -/
theorem omitted_limit_not_defaulted :
    (callTool ⟨"sandbox", "token"⟩ "list_customers" (some []) (.ok (.customers []))).2 =
      some { path := "/customers", query := [], method := "GET", body := none } ∧
    ((callTool ⟨"sandbox", "token"⟩ "list_customers" (some []) (.ok (.customers []))).2.map
      fun r => r.query.lookup "limit") = some none := by
  exact ⟨rfl, rfl⟩

theorem finishCall_snd (req : HttpRequest) (up : Upstream)
    (render : ApiData → ToolResult) : (finishCall req up render).2 = some req := by
  cases up <;> rfl

theorem limitParam_of_none (args : OptArgs) (hlim : getArg args "limit" = none) :
    limitParam args = [] := by
  simp [limitParam, hlim]

theorem strParam_lookup_ne (args : OptArgs) (key other : String)
    (h : ¬ other = key) : (strParam args key).lookup other = none := by
  have hb : (other == key) = false := by simp [h]
  unfold strParam
  cases hv : getArg args key with
  | none => rfl
  | some v =>
      cases v with
      | str s =>
          by_cases hs : s = "" <;> simp [hs, List.lookup, hb]
      | num n => rfl
      | bool b => rfl
      | obj fields => rfl
      | null => rfl

/-- Claim C3 (amended): when the caller omits the optional `limit`
argument, every list-style handler issues its request with no `limit`
query parameter at all — the schema's `default: 50` is documentation
only; no default is applied by the handler. -/
theorem omitted_limit_left_unset (cfg : Config) (h : ¬ cfg.accessToken = "")
    (args : OptArgs) (up : Upstream) (hlim : getArg args "limit" = none) :
    (∃ r, (callTool cfg "list_customers" args up).2 = some r ∧
      r.path = "/customers" ∧ r.query.lookup "limit" = none) ∧
    (∃ r, (callTool cfg "list_payments" args up).2 = some r ∧
      r.path = "/payments" ∧ r.query.lookup "limit" = none) ∧
    (∃ r, (callTool cfg "list_billing_requests" args up).2 = some r ∧
      r.path = "/billing_requests" ∧ r.query.lookup "limit" = none) := by
  refine
    ⟨⟨⟨"/customers", limitParam args ++ strParam args "after", "GET", none⟩, ?_, rfl, ?_⟩,
     ⟨⟨"/payments", limitParam args ++ strParam args "customer" ++ strParam args "status",
        "GET", none⟩, ?_, rfl, ?_⟩,
     ⟨⟨"/billing_requests", limitParam args ++ strParam args "status" ++ strParam args "customer",
        "GET", none⟩, ?_, rfl, ?_⟩⟩
  · rw [dispatch_list_customers cfg h args up]
    exact finishCall_snd _ _ _
  · simp only [limitParam_of_none args hlim, List.nil_append]
    exact strParam_lookup_ne args "after" "limit" (by decide)
  · rw [dispatch_list_payments cfg h args up]
    exact finishCall_snd _ _ _
  · simp only [limitParam_of_none args hlim, List.nil_append, List.lookup_append]
    rw [strParam_lookup_ne args "customer" "limit" (by decide),
      strParam_lookup_ne args "status" "limit" (by decide)]
    rfl
  · rw [dispatch_list_billing_requests cfg h args up]
    exact finishCall_snd _ _ _
  · simp only [limitParam_of_none args hlim, List.nil_append, List.lookup_append]
    rw [strParam_lookup_ne args "status" "limit" (by decide),
      strParam_lookup_ne args "customer" "limit" (by decide)]
    rfl

/-- Witness for the amended C3 at a concrete invocation with no
arguments at all. -/
theorem omitted_limit_left_unset_witness :
    (∃ r, (callTool ⟨"sandbox", "tok"⟩ "list_customers" none (.transportFailure "x")).2 = some r ∧
      r.path = "/customers" ∧ r.query.lookup "limit" = none) ∧
    (∃ r, (callTool ⟨"sandbox", "tok"⟩ "list_payments" none (.transportFailure "x")).2 = some r ∧
      r.path = "/payments" ∧ r.query.lookup "limit" = none) ∧
    (∃ r, (callTool ⟨"sandbox", "tok"⟩ "list_billing_requests" none (.transportFailure "x")).2 = some r ∧
      r.path = "/billing_requests" ∧ r.query.lookup "limit" = none) :=
  omitted_limit_left_unset ⟨"sandbox", "tok"⟩ (by decide) none (.transportFailure "x") rfl

/-! ## C6: unknown tool names -/

/-- Claim C6: for every tool name outside the registry of eleven (given a
configured access token), `callTool` returns an error-flagged result whose
text contains the literal tool name, and no HTTP request is issued. -/
theorem unknown_tool_error (cfg : Config) (h : ¬ cfg.accessToken = "")
    (name : String) (hn : ¬ name ∈ toolNames) (args : OptArgs) (up : Upstream) :
    (callTool cfg name args up).1.isError = true ∧
    (callTool cfg name args up).1.content =
      [{ type := "text", text := "Error: " ++ ("Unknown tool: " ++ name) }] ∧
    (callTool cfg name args up).2 = none := by
  have hlist : toolNames = ["list_customers", "create_customer", "get_customer",
    "list_customer_bank_accounts", "create_redirect_flow", "list_payments",
    "create_billing_request", "create_billing_request_flow", "get_billing_request",
    "list_billing_requests", "fulfil_billing_request"] := rfl
  rw [hlist] at hn
  simp only [List.mem_cons, List.not_mem_nil, or_false, not_or] at hn
  obtain ⟨h1, h2, h3, h4, h5, h6, h7, h8, h9, h10, h11⟩ := hn
  refine ⟨?_, ?_, ?_⟩ <;>
    simp [callTool, h, h1, h2, h3, h4, h5, h6, h7, h8, h9, h10, h11, errResult]

/-- Witness for C6 at a concrete unregistered tool name. -/
theorem unknown_tool_error_witness :
    (callTool ⟨"sandbox", "token"⟩ "frobnicate" none (.transportFailure "x")).1.isError = true ∧
    (callTool ⟨"sandbox", "token"⟩ "frobnicate" none (.transportFailure "x")).1.content =
      [{ type := "text", text := "Error: " ++ ("Unknown tool: " ++ "frobnicate") }] ∧
    (callTool ⟨"sandbox", "token"⟩ "frobnicate" none (.transportFailure "x")).2 = none :=
  unknown_tool_error ⟨"sandbox", "token"⟩ (by decide) "frobnicate" (by decide) none
    (.transportFailure "x")

/-! ## C8: monetary rendering -/

/-- `sub` occurs as a contiguous substring of `s`. -/
def containsSub (s sub : String) : Prop :=
  ∃ pre post, s = pre ++ sub ++ post

theorem containsSub_append_left (a b sub : String) (h : containsSub a sub) :
    containsSub (a ++ b) sub := by
  obtain ⟨pre, post, rfl⟩ := h
  exact ⟨pre, post ++ b, by rw [String.append_assoc]⟩

theorem containsSub_append_right (a b sub : String) (h : containsSub b sub) :
    containsSub (a ++ b) sub := by
  obtain ⟨pre, post, rfl⟩ := h
  refine ⟨a ++ pre, post, ?_⟩
  rw [← String.append_assoc, ← String.append_assoc]

theorem renderPaymentLine_contains (pid pstatus pcreated : String)
    (pdesc : Option String) :
    containsSub (renderPaymentLine ⟨pid, 2999, "GBP", pstatus, pcreated, pdesc⟩)
      "GBP 29.99" := by
  have h : renderPaymentLine ⟨pid, 2999, "GBP", pstatus, pcreated, pdesc⟩ =
      "• Amount: " ++ "GBP" ++ " " ++ formatAmount 2999 ++ "\n" ++
      "  ID: " ++ pid ++ "\n" ++
      "  Status: " ++ pstatus ++ "\n" ++
      "  Created: " ++ pcreated ++ "\n" ++
      "  Description: " ++ orDefault pdesc "No description" := rfl
  rw [h]
  iterate 12 apply containsSub_append_left
  exact ⟨"• Amount: ", "", rfl⟩

/-- Claim C8: a `list_payments` invocation whose upstream response carries
a payment with amount `2999` and currency `GBP` renders text containing
the substring `GBP 29.99` (amount divided by 100, fixed to two decimal
places), inside a non-error result. -/
theorem monetary_rendering (cfg : Config) (h : ¬ cfg.accessToken = "")
    (args : OptArgs) (pid pstatus pcreated : String) (pdesc : Option String) :
    ∃ t, (callTool cfg "list_payments" args
        (.ok (.payments [⟨pid, 2999, "GBP", pstatus, pcreated, pdesc⟩]))).1 =
      okResult t ∧ containsSub t "GBP 29.99" := by
  rw [dispatch_list_payments cfg h args _]
  refine ⟨_, rfl, ?_⟩
  apply containsSub_append_right
  have hi : String.intercalate "\n\n"
      (List.map renderPaymentLine [⟨pid, 2999, "GBP", pstatus, pcreated, pdesc⟩]) =
      renderPaymentLine ⟨pid, 2999, "GBP", pstatus, pcreated, pdesc⟩ := rfl
  rw [hi]
  exact renderPaymentLine_contains pid pstatus pcreated pdesc

/-- Witness for C8 at a fully concrete payment. -/
theorem monetary_rendering_witness :
    ∃ t, (callTool ⟨"sandbox", "token"⟩ "list_payments" none
        (.ok (.payments [⟨"PM123", 2999, "GBP", "confirmed",
          "2025-01-01T00:00:00.000Z", some "Invoice 42"⟩]))).1 =
      okResult t ∧ containsSub t "GBP 29.99" :=
  monetary_rendering ⟨"sandbox", "token"⟩ (by decide) none "PM123" "confirmed"
    "2025-01-01T00:00:00.000Z" (some "Invoice 42")

end GoCardless
